import Mathlib

/-!
Shallow embedding of the StateGenUI graph core
(`src/xinjector_stategen/dag/state_generator.py` and
`src/xinjector_stategen/workflow_builder.py`).

Python floats that only carry cosmetic coordinates and configuration
payloads are modelled as rationals (all arithmetic performed on them in
the embedded code is exact), Python ints as `Int`, Python dicts as
insertion-ordered association lists.
-/

set_option maxRecDepth 10000

/-- Base ID for generating unique pin IDs (`BASE_ID = 50000`). -/
def BASE_ID : Int := 50000

/-- Pin data types in the system (`class PinType(Enum)`). -/
inductive PinType where
  | execution
  | vector2
  | boolean
  | float
deriving DecidableEq

/-- JSON-like values, the codomain of the `to_dict` serializers.
Objects keep insertion order, as Python dicts do. -/
inductive JValue where
  | str (s : String)
  | int (n : Int)
  | num (q : ℚ)
  | bool (b : Bool)
  | arr (elems : List JValue)
  | obj (fields : List (String × JValue))
  | null

/-- `Pin` dataclass: id, name, pin_type. -/
structure Pin where
  id : Int
  name : String
  pin_type : PinType := PinType.execution
deriving DecidableEq

/-- `Pin.to_dict`: `{"id": self.id, "name": self.name}`. -/
def Pin.to_dict (p : Pin) : JValue :=
  JValue.obj [("id", JValue.int p.id), ("name", JValue.str p.name)]

/-- `Node` dataclass: node_type, position, in_pins, out_pins, config. -/
structure Node where
  node_type : String
  position : ℚ × ℚ
  in_pins : List Pin := []
  out_pins : List Pin := []
  config : List (String × JValue) := []

/-- Python `dict` single-key assignment semantics: replace in place if the
key is present, else append at the end. -/
def dictInsert (d : List (String × JValue)) (k : String) (v : JValue) :
    List (String × JValue) :=
  if d.any (fun p => p.1 == k) then
    d.map (fun p => if p.1 == k then (k, v) else p)
  else d ++ [(k, v)]

/-- Python `dict.update`: fold single-key assignment over the other dict. -/
def dictUpdate (d other : List (String × JValue)) : List (String × JValue) :=
  other.foldl (fun acc p => dictInsert acc p.1 p.2) d

/-- Association-list lookup (Python `d[k]` on an insertion-ordered dict). -/
def lookupJ (d : List (String × JValue)) (k : String) : Option JValue :=
  (d.find? (fun p => p.1 == k)).map (fun p => p.2)

/-- `Node.to_dict`: base record with `nodeType` and `position`, optional
`inPins`/`outPins` when non-empty, then `result.update(self.config)`. -/
def Node.to_dict (n : Node) : JValue :=
  let result : List (String × JValue) :=
    [("nodeType", JValue.str n.node_type),
     ("position", JValue.obj
        [("x", JValue.num n.position.1), ("y", JValue.num n.position.2)])]
  let result := if n.in_pins ≠ [] then
      result ++ [("inPins", JValue.arr (n.in_pins.map Pin.to_dict))]
    else result
  let result := if n.out_pins ≠ [] then
      result ++ [("outPins", JValue.arr (n.out_pins.map Pin.to_dict))]
    else result
  JValue.obj (dictUpdate result n.config)

/-- `Link` dataclass: left_pin_id (source/output pin), right_pin_id
(target/input pin). -/
structure Link where
  left_pin_id : Int
  right_pin_id : Int
deriving DecidableEq

/-- `Link.to_dict`: `{"leftPinID": ..., "rightPinID": ...}`. -/
def Link.to_dict (l : Link) : JValue :=
  JValue.obj [("leftPinID", JValue.int l.left_pin_id),
              ("rightPinID", JValue.int l.right_pin_id)]

/-- `StateGenerator.__init__`: empty node and link lists, counter at
`BASE_ID`. The class is mutable in Python; here the state is threaded
explicitly through every operation. -/
structure StateGenerator where
  nodes : List Node := []
  links : List Link := []
  current_id : Int := BASE_ID

/-- A fresh `StateGenerator()`. -/
def StateGenerator.init : StateGenerator :=
  { nodes := [], links := [], current_id := BASE_ID }

/-- `get_next_id`: increment the counter, return its new value. -/
def get_next_id (g : StateGenerator) : Int × StateGenerator :=
  (g.current_id + 1, { g with current_id := g.current_id + 1 })

/-- `_create_pin`: allocate an id and build a pin. -/
def create_pin (g : StateGenerator) (name : String)
    (pin_type : PinType := PinType.execution) : Pin × StateGenerator :=
  let (i, g1) := get_next_id g
  (⟨i, name, pin_type⟩, g1)

/-- Allocate one pin per (name, type) spec, in list order (the order the
Python factory bodies build their pin lists in). -/
def allocPins (g : StateGenerator) : List (String × PinType) →
    List Pin × StateGenerator
  | [] => ([], g)
  | (nm, t) :: rest =>
    let (p, g1) := create_pin g nm t
    let (ps, g2) := allocPins g1 rest
    (p :: ps, g2)

/-- Common factory shape: allocate the input pins, then the output pins,
build the node, append it to the graph (`self.nodes.append(node)`). Every
`create_*` factory in the source is an instance of this shape. -/
def mkNode (g : StateGenerator) (nt : String) (pos : ℚ × ℚ)
    (inSpecs outSpecs : List (String × PinType))
    (config : List (String × JValue)) : Node × StateGenerator :=
  let (ins, g1) := allocPins g inSpecs
  let (outs, g2) := allocPins g1 outSpecs
  let n : Node := { node_type := nt, position := pos, in_pins := ins,
                    out_pins := outs, config := config }
  (n, { g2 with nodes := g2.nodes ++ [n] })

/-- `create_start_node`. -/
def create_start_node (g : StateGenerator) (name : String) (pos : ℚ × ℚ) :
    Node × StateGenerator :=
  mkNode g "Start" pos [("In", PinType.execution)] []
    [("nodeName", JValue.str name)]

/-- `create_sequence`: inputs In, In 2..In 5 and one Out. -/
def create_sequence (g : StateGenerator) (pos : ℚ × ℚ) :
    Node × StateGenerator :=
  mkNode g "Sequence" pos
    [("In", PinType.execution), ("In 2", PinType.execution),
     ("In 3", PinType.execution), ("In 4", PinType.execution),
     ("In 5", PinType.execution)]
    [("Out", PinType.execution)] []

/-- `create_if_node`. -/
def create_if_node (g : StateGenerator) (pos : ℚ × ℚ) :
    Node × StateGenerator :=
  mkNode g "If" pos
    [("True", PinType.execution), ("False", PinType.execution),
     ("Condition", PinType.boolean)]
    [("Out", PinType.execution)] []

/-- `create_push_node`. -/
def create_push_node (g : StateGenerator) (target_state : String)
    (pos : ℚ × ℚ) : Node × StateGenerator :=
  mkNode g "PushNode" pos [] [("Out", PinType.execution)]
    [("name", JValue.str target_state)]

/-- `create_wait`. -/
def create_wait (g : StateGenerator) (wait_time : Int) (pos : ℚ × ℚ) :
    Node × StateGenerator :=
  mkNode g "Wait" pos [("In", PinType.execution)] [("Out", PinType.execution)]
    [("waitTime", JValue.int wait_time)]

/-- `create_enemy_list`. -/
def create_enemy_list (g : StateGenerator) (enemy_ids : List Int)
    (pos : ℚ × ℚ) (object_type : Int := 0) (sort_type : Int := 0)
    (ignore_invul : Bool := false) : Node × StateGenerator :=
  mkNode g "EnemyList" pos []
    [("Pos", PinType.vector2), ("Exists", PinType.boolean),
     ("ID", PinType.float)]
    [("enemyList", JValue.arr (enemy_ids.map JValue.int)),
     ("objectType", JValue.int object_type),
     ("sortType", JValue.int sort_type),
     ("ignoreInvul", JValue.bool ignore_invul)]

/-- `create_player_pos`. -/
def create_player_pos (g : StateGenerator) (pos : ℚ × ℚ) :
    Node × StateGenerator :=
  mkNode g "PlayerPos" pos [] [("Pos", PinType.vector2)] []

/-- `create_point`. -/
def create_point (g : StateGenerator) (x y : ℚ) (pos : ℚ × ℚ) :
    Node × StateGenerator :=
  mkNode g "Point" pos [] [("Pos", PinType.vector2)]
    [("point", JValue.obj [("x", JValue.num x), ("y", JValue.num y)])]

/-- `create_point_list`. -/
def create_point_list (g : StateGenerator) (points : List (ℚ × ℚ))
    (pos : ℚ × ℚ) (randomize : Bool := false) (switch_distance : ℚ := 1) :
    Node × StateGenerator :=
  mkNode g "PointList" pos [] [("Pos", PinType.vector2)]
    [("pointList", JValue.arr (points.map (fun p =>
        JValue.obj [("x", JValue.num p.1), ("y", JValue.num p.2)]))),
     ("randomize", JValue.bool randomize),
     ("switchDistance", JValue.num switch_distance)]

/-- `create_move_to`. -/
def create_move_to (g : StateGenerator) (pos : ℚ × ℚ)
    (teleport : Bool := false) (teleport_once : Bool := false) :
    Node × StateGenerator :=
  mkNode g "MoveTo" pos
    [("In", PinType.execution), ("Position", PinType.vector2)]
    [("Out", PinType.execution)]
    [("teleport", JValue.bool teleport),
     ("teleportOnce", JValue.bool teleport_once)]

/-- `create_enter_portal`. -/
def create_enter_portal (g : StateGenerator) (pos : ℚ × ℚ) :
    Node × StateGenerator :=
  mkNode g "EnterPortal" pos
    [("In", PinType.execution), ("Portal ID", PinType.float)]
    [("Out", PinType.execution)] []

/-- `create_operator`. -/
def create_operator (g : StateGenerator) (pos : ℚ × ℚ)
    (operator_type : Int := 0) (towards_distance : ℚ := 0) :
    Node × StateGenerator :=
  mkNode g "Operator" pos
    [("A", PinType.vector2), ("B", PinType.vector2), ("Val", PinType.float)]
    [("Result", PinType.vector2), ("Distance", PinType.float)]
    [("operatorType", JValue.int operator_type),
     ("towardsDistance", JValue.num towards_distance)]

/-- `create_comparison`. -/
def create_comparison (g : StateGenerator) (pos : ℚ × ℚ)
    (comparison_type : Int := 0) (val_to_compare : ℚ := 0) :
    Node × StateGenerator :=
  mkNode g "Comparison" pos [("A", PinType.float)]
    [("Result", PinType.boolean)]
    [("comparisonType", JValue.int comparison_type),
     ("valToCompare", JValue.num val_to_compare)]

/-- `create_offset_pos`. -/
def create_offset_pos (g : StateGenerator) (pos : ℚ × ℚ) (dist : ℚ := 1) :
    Node × StateGenerator :=
  mkNode g "OffsetPos" pos [("Pos", PinType.vector2)]
    [("Result", PinType.vector2)]
    [("offsetDist", JValue.num dist)]

/-- The four `ValueError` conditions `link_pins` can raise. -/
inductive LinkError where
  | pinNotFound
  | typeMismatch
  | invalidLinkShape
  | duplicateLink
deriving DecidableEq

/-- First loop of `link_pins`: scan `source_node.out_pins` for the name,
falling back to `source_node.in_pins`; the Bool records `source_is_out`. -/
def resolveSource (n : Node) (name : String) : Option (Pin × Bool) :=
  match n.out_pins.find? (fun p => p.name == name) with
  | some p => some (p, true)
  | none =>
    match n.in_pins.find? (fun p => p.name == name) with
    | some p => some (p, false)
    | none => none

/-- Second loop of `link_pins`: scan `target_node.in_pins` first, falling
back to `target_node.out_pins`; the Bool records `target_is_out`. -/
def resolveTarget (n : Node) (name : String) : Option (Pin × Bool) :=
  match n.in_pins.find? (fun p => p.name == name) with
  | some p => some (p, false)
  | none =>
    match n.out_pins.find? (fun p => p.name == name) with
    | some p => some (p, true)
    | none => none

/-- `StateGenerator.link_pins`. Returns the state of the generator after
the call together with the error raised, if any; every `raise` happens
before the single mutation (`self.links.append`), so the state returned
with an error is the input state, exactly as in the source. -/
def link_pins (g : StateGenerator) (source_node : Node)
    (source_pin_name : String) (target_node : Node)
    (target_pin_name : String) : StateGenerator × Option LinkError :=
  match resolveSource source_node source_pin_name,
        resolveTarget target_node target_pin_name with
  | none, _ => (g, some LinkError.pinNotFound)
  | some _, none => (g, some LinkError.pinNotFound)
  | some (sp, source_is_out), some (tp, target_is_out) =>
    if sp.pin_type ≠ tp.pin_type then (g, some LinkError.typeMismatch)
    else
      match source_is_out, target_is_out with
      | true, false =>
        if g.links.any (fun l =>
            l.left_pin_id == sp.id && l.right_pin_id == tp.id) then
          (g, some LinkError.duplicateLink)
        else ({ g with links := g.links ++ [⟨sp.id, tp.id⟩] }, none)
      | false, true =>
        if g.links.any (fun l =>
            l.left_pin_id == tp.id && l.right_pin_id == sp.id) then
          (g, some LinkError.duplicateLink)
        else ({ g with links := g.links ++ [⟨tp.id, sp.id⟩] }, none)
      | _, _ => (g, some LinkError.invalidLinkShape)

/-- `generate`: the serialized document, as a JSON value
(`{"links": ..., "nodes": ..., "version": "1.0"}`). -/
def generateJson (g : StateGenerator) : JValue :=
  JValue.obj
    [("links", JValue.arr (g.links.map Link.to_dict)),
     ("nodes", JValue.arr (g.nodes.map Node.to_dict)),
     ("version", JValue.str "1.0")]

/- Rendering of the JSON document to a string (stand-in for
`json.dumps`); `generate` returns this string. -/
mutual

def renderJ : JValue → String
  | JValue.str s => "\"" ++ s ++ "\""
  | JValue.int n => toString n
  | JValue.num q => toString q
  | JValue.bool b => cond b "true" "false"
  | JValue.null => "null"
  | JValue.arr xs => "[" ++ renderArr xs ++ "]"
  | JValue.obj fs => "\x7b" ++ renderObj fs ++ "\x7d"

def renderArr : List JValue → String
  | [] => ""
  | [x] => renderJ x
  | x :: y :: xs => renderJ x ++ ", " ++ renderArr (y :: xs)

def renderObj : List (String × JValue) → String
  | [] => ""
  | [(k, v)] => "\"" ++ k ++ "\": " ++ renderJ v
  | (k, v) :: f :: fs =>
    "\"" ++ k ++ "\": " ++ renderJ v ++ ", " ++ renderObj (f :: fs)

end

/-- `StateGenerator.generate`: serialize to a string. -/
def generate (g : StateGenerator) : String :=
  renderJ (generateJson g)

/-- `link_pins` lifted to `Except`, for use inside the pattern functions
of `workflow_builder.py`, where a raised `ValueError` would abort the
whole pattern call. -/
def linkE (g : StateGenerator) (sn : Node) (spn : String) (tn : Node)
    (tpn : String) : Except LinkError StateGenerator :=
  match link_pins g sn spn tn tpn with
  | (g2, none) => Except.ok g2
  | (_, some e) => Except.error e

/-- Layout constant `H_SPACE = 200.0`. -/
def H_SPACE : ℚ := 200

/-- Layout constant `DEPTH_SPACE = 200.0`. -/
def DEPTH_SPACE : ℚ := 200

/-- Layout constant `DATA_OFFSET = -150.0`. -/
def DATA_OFFSET : ℚ := -150

/-- `WorkflowBuilder.create_move_to_target`: movement node, optionally
preceded by a position-offset node wired `offset.Result -> move.Position`.
Returns the pattern's named node bundle and the updated generator. -/
def create_move_to_target (g : StateGenerator) (position : ℚ × ℚ)
    (teleport : Bool) (offset_dist : Option ℚ) :
    Except LinkError (List (String × Node) × StateGenerator) :=
  let x := position.1
  let y := position.2
  match offset_dist with
  | some d =>
    let (offset, g1) := create_offset_pos g (x, y) d
    let (move, g2) := create_move_to g1 (x - H_SPACE, y) teleport false
    match linkE g2 offset "Result" move "Position" with
    | Except.ok g3 => Except.ok ([("offset", offset), ("move", move)], g3)
    | Except.error e => Except.error e
  | none =>
    let (move, g1) := create_move_to g (x, y) teleport false
    Except.ok ([("move", move)], g1)

/-- `WorkflowBuilder.create_beacon_search`: the two-level decision
subgraph, node creations and link calls in source order. -/
def create_beacon_search (g : StateGenerator) (beacon_enemy_id : Int)
    (beacon_position : ℚ × ℚ) (next_state : String) (position : ℚ × ℚ)
    (distance_threshold : ℚ) :
    Except LinkError (List (String × Node) × StateGenerator) :=
  let x := position.1
  let y := position.2
  let (start, g) := create_start_node g
    (next_state.replace "_clear" "_beacon") (x, y)
  let (sequence, g) := create_sequence g (x - H_SPACE, y)
  let (distance_check, g) := create_if_node g (x - 2 * H_SPACE, y)
  let (teleport_move, g) := create_move_to g (x - 3 * H_SPACE, y) true false
  let data_y := y + DATA_OFFSET
  let (player_pos, g) := create_player_pos g (x - H_SPACE, data_y)
  let (beacon_point, g) := create_point_list g [beacon_position]
    (x - 2 * H_SPACE, data_y)
  let (operator, g) := create_operator g (x - 3 * H_SPACE, data_y) 0
  let (comparison, g) := create_comparison g (x - 4 * H_SPACE, data_y) 2
    distance_threshold
  let depth1_y := y + DEPTH_SPACE
  let (enemy_check, g) := create_if_node g (x - 2 * H_SPACE, depth1_y)
  let (enemy_move, g) := create_move_to g (x - 3 * H_SPACE, depth1_y)
  let (push_next, g) := create_push_node g next_state
    (x - 3 * H_SPACE, depth1_y + DEPTH_SPACE)
  let enemy_data_y := y + DEPTH_SPACE / 2
  let (enemy_finder, g) := create_enemy_list g [beacon_enemy_id]
    (x - 3 * H_SPACE, enemy_data_y) 0
  let (enemy_offset, g) := create_offset_pos g
    (x - 4 * H_SPACE, enemy_data_y + 50) (5 / 2)
  Except.bind (linkE g player_pos "Pos" operator "A") (fun g =>
  Except.bind (linkE g beacon_point "Pos" operator "B") (fun g =>
  Except.bind (linkE g operator "Distance" comparison "A") (fun g =>
  Except.bind (linkE g comparison "Result" distance_check "Condition") (fun g =>
  Except.bind (linkE g beacon_point "Pos" teleport_move "Position") (fun g =>
  Except.bind (linkE g enemy_finder "Exists" enemy_check "Condition") (fun g =>
  Except.bind (linkE g enemy_finder "Pos" enemy_offset "Pos") (fun g =>
  Except.bind (linkE g enemy_offset "Result" enemy_move "Position") (fun g =>
  Except.bind (linkE g start "In" sequence "Out") (fun g =>
  Except.bind (linkE g sequence "In" distance_check "Out") (fun g =>
  Except.bind (linkE g distance_check "False" teleport_move "Out") (fun g =>
  Except.bind (linkE g distance_check "True" enemy_check "Out") (fun g =>
  Except.bind (linkE g enemy_check "True" enemy_move "Out") (fun g =>
  Except.bind (linkE g enemy_check "False" push_next "Out") (fun g =>
  Except.ok
    ([("start", start), ("sequence", sequence),
      ("distance_check", distance_check), ("teleport_move", teleport_move),
      ("player_pos", player_pos), ("beacon_point", beacon_point),
      ("operator", operator), ("comparison", comparison),
      ("enemy_check", enemy_check), ("enemy_move", enemy_move),
      ("push_next", push_next), ("enemy_finder", enemy_finder),
      ("enemy_offset", enemy_offset)], g)))))))))))))))

/-- The connectivity skeleton of a node: the ids of its output pins and
the ids of its input pins, in array order. -/
def nodeSkel (n : Node) : List Int × List Int :=
  (n.out_pins.map Pin.id, n.in_pins.map Pin.id)

/-- Index of the node (given by skeleton) owning the pin with the given
id (membership in either pin array), if any. -/
def ownerIdx (skel : List (List Int × List Int)) (pid : Int) : Option Nat :=
  skel.findIdx? (fun s => (s.1 ++ s.2).contains pid)

/-- Node-level directed edges induced by the links: owner of the left
(output) pin to owner of the right (input) pin. -/
def nodeEdges (links : List Link) (skel : List (List Int × List Int)) :
    List (Nat × Nat) :=
  links.filterMap (fun l =>
    match ownerIdx skel l.left_pin_id, ownerIdx skel l.right_pin_id with
    | some a, some b => some (a, b)
    | _, _ => none)

/-- One saturation step of forward reachability over the edge list. -/
def stepOnce (edges : List (Nat × Nat)) (s : List Nat) : List Nat :=
  edges.foldl (fun acc e =>
    if acc.contains e.1 && !(acc.contains e.2) then acc ++ [e.2] else acc) s

/-- Nodes reachable from `a` (including `a` itself) within `fuel`
saturation rounds; `fuel = ` number of nodes saturates all paths. -/
def reachFrom (edges : List (Nat × Nat)) (a : Nat) : Nat → List Nat
  | 0 => [a]
  | fuel + 1 => stepOnce edges (reachFrom edges a fuel)

/-- No link's right-pin node reaches, following links in the
left-to-right direction, the node owning that link's left pin. -/
def linkAcyclicAux (links : List Link) (skel : List (List Int × List Int)) :
    Bool :=
  links.all (fun l =>
    match ownerIdx skel l.left_pin_id, ownerIdx skel l.right_pin_id with
    | some a, some b =>
      !((reachFrom (nodeEdges links skel) b skel.length).contains a)
    | _, _ => true)

/-- The graph has no link whose right-pin node can reach, following links
in the left-to-right (output-to-input) direction, the node owning that
link's left pin. -/
def linkAcyclic (g : StateGenerator) : Bool :=
  linkAcyclicAux g.links (g.nodes.map nodeSkel)

/-- All pin ids of the graph, in creation order: nodes in append order,
and within a node the input pins before the output pins, each array in
allocation order — exactly the order the factories allocate them in. -/
def pinIdsOf (g : StateGenerator) : List Int :=
  g.nodes.flatMap (fun n => (n.in_pins ++ n.out_pins).map Pin.id)

/-- One mutating call on a `StateGenerator`: any factory call (every
`create_*` factory is an instance of `mkNode`), or any `link_pins` call
(which may fail and then leaves the state as returned). -/
inductive BuildStep : StateGenerator → StateGenerator → Prop where
  | factory (g : StateGenerator) (nt : String) (pos : ℚ × ℚ)
      (inSpecs outSpecs : List (String × PinType))
      (config : List (String × JValue)) :
      BuildStep g (mkNode g nt pos inSpecs outSpecs config).2
  | link (g : StateGenerator) (sn : Node) (spn : String) (tn : Node)
      (tpn : String) :
      BuildStep g (link_pins g sn spn tn tpn).1

/-- `Builds g g'`: `g'` is reachable from `g` by a sequence of factory
and link calls on the one generator instance. -/
def Builds : StateGenerator → StateGenerator → Prop :=
  Relation.ReflTransGen BuildStep

/-- Invariant carried through the construction: pin ids strictly
increase in creation order, all lie in `(BASE_ID, current_id]`, and the
counter never falls below `BASE_ID`. -/
def IdInv (g : StateGenerator) : Prop :=
  List.Pairwise (· < ·) (pinIdsOf g) ∧
  (∀ i ∈ pinIdsOf g, BASE_ID < i ∧ i ≤ g.current_id) ∧
  BASE_ID ≤ g.current_id

/-- A node exposing an output pin `Q` of type Vector2 (concrete test
input). -/
def srcNodeQ : Node :=
  { node_type := "SrcQ", position := (0, 0), in_pins := [],
    out_pins := [Pin.mk 3 "Q" PinType.vector2], config := [] }

/-- A node carrying the same pin name `P` in both arrays: output pin id
1, input pin id 2, both Vector2 (concrete test input). -/
def tgtNodeP : Node :=
  { node_type := "TgtP", position := (0, 0),
    in_pins := [Pin.mk 2 "P" PinType.vector2],
    out_pins := [Pin.mk 1 "P" PinType.vector2], config := [] }

/-- A node exposing an input pin `C` of type Boolean (concrete test
input). -/
def tgtNodeB : Node :=
  { node_type := "TgtB", position := (0, 0),
    in_pins := [Pin.mk 5 "C" PinType.boolean], out_pins := [], config := [] }

/-- A node exposing an input pin `V` of type Vector2 (concrete test
input). -/
def tgtNodeV : Node :=
  { node_type := "TgtV", position := (0, 0),
    in_pins := [Pin.mk 4 "V" PinType.vector2], out_pins := [], config := [] }

/-- A concrete graph holding `srcNodeQ` and `tgtNodeV`, no links yet. -/
def cGraph : StateGenerator :=
  { nodes := [srcNodeQ, tgtNodeV], links := [], current_id := BASE_ID }

/-- `cGraph` after the one successful link `Q -> V`. -/
def cGraph2 : StateGenerator :=
  { nodes := [srcNodeQ, tgtNodeV], links := [Link.mk 3 4],
    current_id := BASE_ID }

/-- A concrete Wait node as `create_wait` builds it. -/
def exWaitNode : Node :=
  { node_type := "Wait", position := (0, 0),
    in_pins := [Pin.mk 50001 "In" PinType.execution],
    out_pins := [Pin.mk 50002 "Out" PinType.execution],
    config := [("waitTime", JValue.int 500)] }

/-- A node whose config payload collides with the reserved serialization
key `position` (concrete test input). -/
def collideNode : Node :=
  { node_type := "Wait", position := (0, 0), in_pins := [], out_pins := [],
    config := [("position", JValue.str "boom")] }

/-! ## Helper lemmas -/

theorem find?_name_mem {pins : List Pin} {nm : String} {p : Pin}
    (h : pins.find? (fun q => q.name == nm) = some p) : p ∈ pins :=
  List.mem_of_find?_eq_some h

theorem resolveSource_true {n : Node} {nm : String} {p : Pin}
    (h : resolveSource n nm = some (p, true)) : p ∈ n.out_pins := by
  unfold resolveSource at h
  cases h1 : n.out_pins.find? (fun q => q.name == nm) with
  | some q => rw [h1] at h; cases h; exact find?_name_mem h1
  | none =>
    rw [h1] at h
    cases h2 : n.in_pins.find? (fun q => q.name == nm) with
    | some q => rw [h2] at h; cases h
    | none => rw [h2] at h; cases h

theorem resolveSource_false {n : Node} {nm : String} {p : Pin}
    (h : resolveSource n nm = some (p, false)) : p ∈ n.in_pins := by
  unfold resolveSource at h
  cases h1 : n.out_pins.find? (fun q => q.name == nm) with
  | some q => rw [h1] at h; cases h
  | none =>
    rw [h1] at h
    cases h2 : n.in_pins.find? (fun q => q.name == nm) with
    | some q => rw [h2] at h; cases h; exact find?_name_mem h2
    | none => rw [h2] at h; cases h

theorem resolveTarget_true {n : Node} {nm : String} {p : Pin}
    (h : resolveTarget n nm = some (p, true)) : p ∈ n.out_pins := by
  unfold resolveTarget at h
  cases h1 : n.in_pins.find? (fun q => q.name == nm) with
  | some q => rw [h1] at h; cases h
  | none =>
    rw [h1] at h
    cases h2 : n.out_pins.find? (fun q => q.name == nm) with
    | some q => rw [h2] at h; cases h; exact find?_name_mem h2
    | none => rw [h2] at h; cases h

theorem resolveTarget_false {n : Node} {nm : String} {p : Pin}
    (h : resolveTarget n nm = some (p, false)) : p ∈ n.in_pins := by
  unfold resolveTarget at h
  cases h1 : n.in_pins.find? (fun q => q.name == nm) with
  | some q => rw [h1] at h; cases h; exact find?_name_mem h1
  | none =>
    rw [h1] at h
    cases h2 : n.out_pins.find? (fun q => q.name == nm) with
    | some q => rw [h2] at h; cases h
    | none => rw [h2] at h; cases h

theorem link_pins_frame (g : StateGenerator) (sn : Node) (spn : String)
    (tn : Node) (tpn : String) :
    (link_pins g sn spn tn tpn).1.nodes = g.nodes ∧
    (link_pins g sn spn tn tpn).1.current_id = g.current_id ∧
    ((link_pins g sn spn tn tpn).1.links = g.links ∨
     ∃ l, (link_pins g sn spn tn tpn).1.links = g.links ++ [l]) := by
  unfold link_pins
  repeat' split
  all_goals simp

/-- C1. Every link recorded by a successful `link_pins` call pairs an
output-array pin id (as `left_pin_id`) with an input-array pin id (as
`right_pin_id`): either the first argument supplied the output pin and
the second the input pin, or the caller passed them the other way round
and the pair was swapped before recording. When both argument nodes are
registered in the graph, both pins therefore lie in pin arrays of graph
nodes. -/
theorem link_pins_left_output_right_input (g : StateGenerator) (sn : Node)
    (spn : String) (tn : Node) (tpn : String) (g2 : StateGenerator)
    (hsn : sn ∈ g.nodes) (htn : tn ∈ g.nodes)
    (h : link_pins g sn spn tn tpn = (g2, none)) :
    g2.nodes = g.nodes ∧
    ∃ l, g2.links = g.links ++ [l] ∧
      (((∃ p ∈ sn.out_pins, p.id = l.left_pin_id) ∧
        (∃ q ∈ tn.in_pins, q.id = l.right_pin_id)) ∨
       ((∃ p ∈ tn.out_pins, p.id = l.left_pin_id) ∧
        (∃ q ∈ sn.in_pins, q.id = l.right_pin_id))) ∧
      (∃ n ∈ g2.nodes, ∃ p ∈ n.out_pins, p.id = l.left_pin_id) ∧
      (∃ n ∈ g2.nodes, ∃ q ∈ n.in_pins, q.id = l.right_pin_id) := by
  unfold link_pins at h
  split at h
  · cases h
  · cases h
  · rename_i sp sOut tp tOut hrs hrt
    split at h
    · cases h
    · split at h
      · -- source from out_pins, target from in_pins: direct
        have hsp := resolveSource_true hrs
        have htp := resolveTarget_false hrt
        split at h
        · cases h
        · injection h with h1 h2
          subst h1
          refine ⟨rfl, ⟨sp.id, tp.id⟩, rfl, ?_, ?_, ?_⟩
          · exact Or.inl ⟨⟨sp, hsp, rfl⟩, ⟨tp, htp, rfl⟩⟩
          · exact ⟨sn, hsn, sp, hsp, rfl⟩
          · exact ⟨tn, htn, tp, htp, rfl⟩
      · -- source from in_pins, target from out_pins: swapped
        have hsp := resolveSource_false hrs
        have htp := resolveTarget_true hrt
        split at h
        · cases h
        · injection h with h1 h2
          subst h1
          refine ⟨rfl, ⟨tp.id, sp.id⟩, rfl, ?_, ?_, ?_⟩
          · exact Or.inr ⟨⟨tp, htp, rfl⟩, ⟨sp, hsp, rfl⟩⟩
          · exact ⟨tn, htn, tp, htp, rfl⟩
          · exact ⟨sn, hsn, sp, hsp, rfl⟩
      · cases h

theorem link_pins_left_output_right_input_witness :
    cGraph2.nodes = cGraph.nodes ∧
    ∃ l, cGraph2.links = cGraph.links ++ [l] ∧
      (((∃ p ∈ srcNodeQ.out_pins, p.id = l.left_pin_id) ∧
        (∃ q ∈ tgtNodeV.in_pins, q.id = l.right_pin_id)) ∨
       ((∃ p ∈ tgtNodeV.out_pins, p.id = l.left_pin_id) ∧
        (∃ q ∈ srcNodeQ.in_pins, q.id = l.right_pin_id))) ∧
      (∃ n ∈ cGraph2.nodes, ∃ p ∈ n.out_pins, p.id = l.left_pin_id) ∧
      (∃ n ∈ cGraph2.nodes, ∃ q ∈ n.in_pins, q.id = l.right_pin_id) :=
  link_pins_left_output_right_input cGraph srcNodeQ "Q" tgtNodeV "V" cGraph2
    (by simp [cGraph, List.mem_cons]) (by simp [cGraph, List.mem_cons]) rfl

/-- C2. `link_pins` is atomic and rejects duplicates: whenever it raises
any of its errors, the generator state (nodes, links and the id counter
alike) is exactly the input state; whenever the graph's link sequence
already contains — anywhere, added by whatever earlier call — the
(left, right) pin-id pair the current call resolves to, the call fails
with the duplicate-link error; and in particular repeating a
just-succeeded call with identical arguments fails with the
duplicate-link error, leaving the state unchanged. -/
theorem link_pins_duplicate_and_atomic (g : StateGenerator) (sn : Node)
    (spn : String) (tn : Node) (tpn : String) :
    (∀ g2 e, link_pins g sn spn tn tpn = (g2, some e) → g2 = g) ∧
    (∀ sp tp sOut tOut,
      resolveSource sn spn = some (sp, sOut) →
      resolveTarget tn tpn = some (tp, tOut) →
      sp.pin_type = tp.pin_type →
      (sOut = true ∧ tOut = false ∧ Link.mk sp.id tp.id ∈ g.links ∨
       sOut = false ∧ tOut = true ∧ Link.mk tp.id sp.id ∈ g.links) →
      link_pins g sn spn tn tpn = (g, some LinkError.duplicateLink)) ∧
    (∀ g2, link_pins g sn spn tn tpn = (g2, none) →
      link_pins g2 sn spn tn tpn = (g2, some LinkError.duplicateLink)) := by
  refine ⟨?_, ?_, ?_⟩
  · intro g2 e h
    unfold link_pins at h
    split at h
    · injection h with h1 h2; exact h1.symm
    · injection h with h1 h2; exact h1.symm
    · split at h
      · injection h with h1 h2; exact h1.symm
      · split at h
        · split at h
          · injection h with h1 h2; exact h1.symm
          · injection h with h1 h2; exact nomatch h2
        · split at h
          · injection h with h1 h2; exact h1.symm
          · injection h with h1 h2; exact nomatch h2
        · injection h with h1 h2; exact h1.symm
  · intro sp tp sOut tOut hrs hrt hty hmem
    unfold link_pins
    rw [hrs, hrt]
    rcases hmem with ⟨hs, ht, hmem⟩ | ⟨hs, ht, hmem⟩ <;> subst hs <;> subst ht
    · have hany : (g.links.any fun l =>
          l.left_pin_id == sp.id && l.right_pin_id == tp.id) = true :=
        List.any_eq_true.mpr ⟨Link.mk sp.id tp.id, hmem, by simp⟩
      simp [hty, hany]
    · have hany : (g.links.any fun l =>
          l.left_pin_id == tp.id && l.right_pin_id == sp.id) = true :=
        List.any_eq_true.mpr ⟨Link.mk tp.id sp.id, hmem, by simp⟩
      simp [hty, hany]
  · intro g2 h
    unfold link_pins at h
    split at h
    · cases h
    · cases h
    · rename_i sp sOut tp tOut hrs hrt
      split at h
      · cases h
      · rename_i hty
        split at h
        · split at h
          · cases h
          · injection h with h1 h2
            subst h1
            unfold link_pins
            rw [hrs, hrt]
            simp only [hty, ite_false, List.any_append, List.any_cons,
              List.any_nil, beq_self_eq_true, Bool.and_true, Bool.true_and,
              Bool.or_true, Bool.or_false, if_true]
        · split at h
          · cases h
          · injection h with h1 h2
            subst h1
            unfold link_pins
            rw [hrs, hrt]
            simp only [hty, ite_false, List.any_append, List.any_cons,
              List.any_nil, beq_self_eq_true, Bool.and_true, Bool.true_and,
              Bool.or_true, Bool.or_false, if_true]
        · cases h

theorem link_pins_duplicate_and_atomic_witness :
    link_pins cGraph2 srcNodeQ "Q" tgtNodeV "V" =
      (cGraph2, some LinkError.duplicateLink) :=
  (link_pins_duplicate_and_atomic cGraph2 srcNodeQ "Q" tgtNodeV "V").2.1
    (Pin.mk 3 "Q" PinType.vector2) (Pin.mk 4 "V" PinType.vector2) true false
    rfl rfl rfl (Or.inl ⟨rfl, rfl, List.mem_cons_self _ _⟩)

/-- C5 counterexample. When the second-argument node carries the pin name
in both arrays, `link_pins` resolves that side to the *input*-array pin
(id 2), not the output-array pin (id 1): the claimed output-array-first
resolution on either side is false for the target side. -/
theorem link_pins_target_prefers_input_pin :
    link_pins StateGenerator.init srcNodeQ "Q" tgtNodeP "P" =
      ({ nodes := [], links := [Link.mk 3 2], current_id := 50000 }, none) ∧
    tgtNodeP.out_pins.find? (fun q => q.name == "P") =
      some (Pin.mk 1 "P" PinType.vector2) ∧
    (Link.mk 3 2).right_pin_id ≠ (Pin.mk 1 "P" PinType.vector2).id :=
  ⟨rfl, rfl, by decide⟩

/-- C5 (amended). Pin resolution in `link_pins` is asymmetric: the
first-argument node is searched output-array first, then input array; the
second-argument node is searched input-array first, then output array; a
name absent from both arrays of its node makes the whole call fail with
`PinNotFound`; and on success the recorded link takes its left id from a
first-argument output-array match and its right id from a second-argument
input-array match whenever those exist. -/
theorem link_pins_resolution_order (g : StateGenerator) (sn : Node)
    (spn : String) (tn : Node) (tpn : String) :
    (resolveSource sn spn = none ↔
      (sn.out_pins.find? (fun q => q.name == spn) = none ∧
       sn.in_pins.find? (fun q => q.name == spn) = none)) ∧
    (resolveTarget tn tpn = none ↔
      (tn.in_pins.find? (fun q => q.name == tpn) = none ∧
       tn.out_pins.find? (fun q => q.name == tpn) = none)) ∧
    ((resolveSource sn spn = none ∨ resolveTarget tn tpn = none) →
      link_pins g sn spn tn tpn = (g, some LinkError.pinNotFound)) ∧
    (∀ p, sn.out_pins.find? (fun q => q.name == spn) = some p →
      ∀ g2, link_pins g sn spn tn tpn = (g2, none) →
        ∃ l, g2.links = g.links ++ [l] ∧ l.left_pin_id = p.id) ∧
    (∀ p, tn.in_pins.find? (fun q => q.name == tpn) = some p →
      ∀ g2, link_pins g sn spn tn tpn = (g2, none) →
        ∃ l, g2.links = g.links ++ [l] ∧ l.right_pin_id = p.id) := by
  refine ⟨?_, ?_, ?_, ?_, ?_⟩
  · unfold resolveSource
    cases sn.out_pins.find? (fun q => q.name == spn) <;>
      cases sn.in_pins.find? (fun q => q.name == spn) <;> simp
  · unfold resolveTarget
    cases tn.in_pins.find? (fun q => q.name == tpn) <;>
      cases tn.out_pins.find? (fun q => q.name == tpn) <;> simp
  · intro hd
    unfold link_pins
    rcases hd with hs | ht
    · rw [hs]
    · cases hs : resolveSource sn spn with
      | none => rfl
      | some sr => rw [ht]
  · intro p hfind g2 hlink
    have hres : resolveSource sn spn = some (p, true) := by
      unfold resolveSource; rw [hfind]
    unfold link_pins at hlink
    split at hlink
    · cases hlink
    · cases hlink
    · rename_i sp sOut tp tOut hrs hrt
      split at hlink
      · cases hlink
      · split at hlink
        · split at hlink
          · cases hlink
          · injection hlink with hg hr
            subst hg
            have heq : (sp, true) = (p, true) :=
              Option.some.inj (hrs.symm.trans hres)
            obtain ⟨h1, -⟩ := Prod.mk.injEq .. ▸ heq
            subst h1
            exact ⟨_, rfl, rfl⟩
        · have heq : (sp, false) = (p, true) :=
            Option.some.inj (hrs.symm.trans hres)
          obtain ⟨-, h2⟩ := Prod.mk.injEq .. ▸ heq
          cases h2
        · cases hlink
  · intro p hfind g2 hlink
    have hres : resolveTarget tn tpn = some (p, false) := by
      unfold resolveTarget; rw [hfind]
    unfold link_pins at hlink
    split at hlink
    · cases hlink
    · cases hlink
    · rename_i sp sOut tp tOut hrs hrt
      split at hlink
      · cases hlink
      · split at hlink
        · split at hlink
          · cases hlink
          · injection hlink with hg hr
            subst hg
            have heq : (tp, false) = (p, false) :=
              Option.some.inj (hrt.symm.trans hres)
            obtain ⟨h1, -⟩ := Prod.mk.injEq .. ▸ heq
            subst h1
            exact ⟨_, rfl, rfl⟩
        · have heq : (tp, true) = (p, false) :=
            Option.some.inj (hrt.symm.trans hres)
          obtain ⟨-, h2⟩ := Prod.mk.injEq .. ▸ heq
          cases h2
        · cases hlink

theorem link_pins_resolution_order_witness :
    ∃ l, ({ nodes := [], links := [Link.mk 3 2], current_id := 50000 } :
        StateGenerator).links = StateGenerator.init.links ++ [l] ∧
      l.left_pin_id = (Pin.mk 3 "Q" PinType.vector2).id :=
  (link_pins_resolution_order StateGenerator.init srcNodeQ "Q"
      tgtNodeP "P").2.2.2.1 (Pin.mk 3 "Q" PinType.vector2) rfl
    { nodes := [], links := [Link.mk 3 2], current_id := 50000 } rfl

/-- C8. Whenever the two resolved pins declare different `PinType`s, the
call fails with the type-mismatch error and the generator state —
including its link list — is exactly the input state, regardless of
which argument position supplied which pin and before any shape or
duplicate consideration. -/
theorem link_pins_type_mismatch (g : StateGenerator) (sn : Node)
    (spn : String) (tn : Node) (tpn : String) (sp tp : Pin)
    (sOut tOut : Bool)
    (hrs : resolveSource sn spn = some (sp, sOut))
    (hrt : resolveTarget tn tpn = some (tp, tOut))
    (hty : sp.pin_type ≠ tp.pin_type) :
    link_pins g sn spn tn tpn = (g, some LinkError.typeMismatch) := by
  unfold link_pins
  rw [hrs, hrt]
  simp [hty]

theorem link_pins_type_mismatch_witness :
    link_pins StateGenerator.init srcNodeQ "Q" tgtNodeB "C" =
      (StateGenerator.init, some LinkError.typeMismatch) :=
  link_pins_type_mismatch StateGenerator.init srcNodeQ "Q" tgtNodeB "C"
    (Pin.mk 3 "Q" PinType.vector2) (Pin.mk 5 "C" PinType.boolean)
    true false rfl rfl (by decide)

/-- C9. Serialization reads only the node and link sequences: two graphs
agreeing on those (even with different id counters) serialize to the same
string, so serializing one unmodified graph twice is byte-identical. -/
theorem generate_deterministic (g1 g2 : StateGenerator)
    (hn : g1.nodes = g2.nodes) (hl : g1.links = g2.links) :
    generate g1 = generate g2 := by
  unfold generate generateJson
  rw [hn, hl]

theorem generate_deterministic_witness :
    generate { nodes := [], links := [], current_id := 50007 } =
      generate { nodes := [], links := [], current_id := 99 } :=
  generate_deterministic _ _ rfl rfl

theorem lookupJ_dictInsert_self (d : List (String × JValue)) (k : String)
    (v : JValue) : lookupJ (dictInsert d k v) k = some v := by
  unfold dictInsert
  split
  · rename_i hany
    induction d with
    | nil => cases hany
    | cons hd tl ih =>
      by_cases hk : hd.1 == k
      · simp [lookupJ, List.find?, hk]
      · simp only [List.any_cons, hk, Bool.false_or] at hany
        simp only [List.map_cons, hk, if_false, Bool.false_eq_true]
        simpa [lookupJ, List.find?, hk] using ih hany
  · rename_i hany
    induction d with
    | nil => simp [lookupJ, List.find?]
    | cons hd tl ih =>
      simp only [List.any_cons, Bool.or_eq_true, not_or] at hany
      obtain ⟨hk, htl⟩ := hany
      simp only [Bool.not_eq_true] at hk
      simp only [List.cons_append]
      simpa [lookupJ, List.find?, hk] using ih (by simpa using htl)

theorem lookupJ_map_replace (tl : List (String × JValue)) (k : String)
    (v : JValue) (kk : String) (hne : kk ≠ k) :
    lookupJ (tl.map (fun p => if p.1 == k then (k, v) else p)) kk =
      lookupJ tl kk := by
  have h2 : ¬((k == kk) = true) := by simpa using Ne.symm hne
  induction tl with
  | nil => rfl
  | cons hd tl ih =>
    by_cases hk : hd.1 == k
    · have h1 : hd.1 = k := by simpa using hk
      have h3 : ¬((hd.1 == kk) = true) := by
        rw [h1]; exact h2
      simp only [List.map_cons, hk, if_true]
      simp only [lookupJ, List.find?, h2, h3, if_false] at ih ⊢
      simpa using ih
    · simp only [List.map_cons, hk, if_false, Bool.false_eq_true]
      by_cases h3 : hd.1 == kk
      · simp [lookupJ, List.find?, h3]
      · simp only [lookupJ, List.find?, h3] at ih ⊢
        simpa using ih

theorem lookupJ_append_single_ne (d : List (String × JValue)) (k : String)
    (v : JValue) (kk : String) (hne : kk ≠ k) :
    lookupJ (d ++ [(k, v)]) kk = lookupJ d kk := by
  have h2 : ¬((k == kk) = true) := by simpa using Ne.symm hne
  induction d with
  | nil => simp [lookupJ, List.find?, h2]
  | cons hd tl ih =>
    by_cases h3 : hd.1 == kk
    · simp [lookupJ, List.find?, h3]
    · simp only [List.cons_append, lookupJ, List.find?, h3] at ih ⊢
      simpa using ih

theorem lookupJ_dictInsert_ne (d : List (String × JValue)) (k : String)
    (v : JValue) (kk : String) (hne : kk ≠ k) :
    lookupJ (dictInsert d k v) kk = lookupJ d kk := by
  unfold dictInsert
  split
  · exact lookupJ_map_replace d k v kk hne
  · exact lookupJ_append_single_ne d k v kk hne

theorem lookupJ_dictUpdate_not_mem (other d : List (String × JValue))
    (k : String) (h : ∀ p ∈ other, p.1 ≠ k) :
    lookupJ (dictUpdate d other) k = lookupJ d k := by
  induction other generalizing d with
  | nil => rfl
  | cons hd tl ih =>
    have hstep : dictUpdate d (hd :: tl) =
        dictUpdate (dictInsert d hd.1 hd.2) tl := rfl
    rw [hstep, ih _ (fun p hp => h p (List.mem_cons_of_mem hd hp)),
      lookupJ_dictInsert_ne _ _ _ _ (fun he => h hd (List.mem_cons_self hd tl) he.symm)]

theorem lookupJ_dictUpdate_mem (other d : List (String × JValue))
    (k : String) (v : JValue)
    (hnd : (other.map Prod.fst).Nodup) (h : lookupJ other k = some v) :
    lookupJ (dictUpdate d other) k = some v := by
  induction other generalizing d with
  | nil => cases h
  | cons hd tl ih =>
    have hstep : dictUpdate d (hd :: tl) =
        dictUpdate (dictInsert d hd.1 hd.2) tl := rfl
    rw [hstep]
    by_cases hk : hd.1 == k
    · have hk1 : hd.1 = k := by simpa using hk
      have hv : v = hd.2 := by
        simp [lookupJ, List.find?, hk] at h
        exact h.symm
      subst hv; subst hk1
      have hnotin : ∀ p ∈ tl, p.1 ≠ hd.1 := by
        intro p hp he
        simp only [List.map_cons, List.nodup_cons] at hnd
        exact hnd.1 (he ▸ List.mem_map_of_mem Prod.fst hp)
      rw [lookupJ_dictUpdate_not_mem tl _ _ hnotin]
      exact lookupJ_dictInsert_self d hd.1 hd.2
    · have h2 : lookupJ tl k = some v := by
        simpa [lookupJ, List.find?, hk] using h
      simp only [List.map_cons, List.nodup_cons] at hnd
      exact ih _ hnd.2 h2

/-- C10. Config keys win over the structural record fields: whatever key
the config payload carries (reserved or not), the serialized node record
maps that key to the config's value, because the config is merged into
the record after the reserved fields are written, overwriting silently. -/
theorem node_to_dict_config_overrides (n : Node) (k : String) (v : JValue)
    (hnd : (n.config.map Prod.fst).Nodup) (hk : lookupJ n.config k = some v) :
    ∃ fs, Node.to_dict n = JValue.obj fs ∧ lookupJ fs k = some v := by
  refine ⟨_, rfl, ?_⟩
  exact lookupJ_dictUpdate_mem n.config _ k v hnd hk

theorem node_to_dict_config_overrides_witness :
    ∃ fs, Node.to_dict collideNode = JValue.obj fs ∧
      lookupJ fs "position" = some (JValue.str "boom") :=
  node_to_dict_config_overrides collideNode "position" (JValue.str "boom")
    (by decide) rfl

/-- C6 counterexample. The wire format's link-record field names carry a
capital `ID` (`leftPinID`/`rightPinID`, not `leftPinId`/`rightPinId`),
and the node kind tag is serialized under `nodeType`, not `kind`. -/
theorem generate_field_names_counterexample :
    Link.to_dict (Link.mk 1 2) = JValue.obj
      [("leftPinID", JValue.int 1), ("rightPinID", JValue.int 2)] ∧
    lookupJ [("leftPinID", JValue.int 1), ("rightPinID", JValue.int 2)]
      "leftPinId" = none ∧
    lookupJ [("leftPinID", JValue.int 1), ("rightPinID", JValue.int 2)]
      "rightPinId" = none ∧
    Node.to_dict exWaitNode = JValue.obj
      [("nodeType", JValue.str "Wait"),
       ("position", JValue.obj
          [("x", JValue.num 0), ("y", JValue.num 0)]),
       ("inPins", JValue.arr
          [JValue.obj [("id", JValue.int 50001), ("name", JValue.str "In")]]),
       ("outPins", JValue.arr
          [JValue.obj [("id", JValue.int 50002), ("name", JValue.str "Out")]]),
       ("waitTime", JValue.int 500)] ∧
    lookupJ
      [("nodeType", JValue.str "Wait"),
       ("position", JValue.obj
          [("x", JValue.num 0), ("y", JValue.num 0)]),
       ("inPins", JValue.arr
          [JValue.obj [("id", JValue.int 50001), ("name", JValue.str "In")]]),
       ("outPins", JValue.arr
          [JValue.obj [("id", JValue.int 50002), ("name", JValue.str "Out")]]),
       ("waitTime", JValue.int 500)] "kind" = none :=
  ⟨rfl, rfl, rfl, rfl, rfl⟩

/-- C6 (amended). The serialized document is an object with top-level
keys `links`, `nodes` and constant `version` `"1.0"`; each link record is
the integer pair under the field names `leftPinID` and `rightPinID`; each
node record carries its kind tag under `nodeType` and its coordinates
under `position` as an {x, y} object, provided the config payload does
not itself override those reserved keys. -/
theorem generate_wire_format :
    (∀ g : StateGenerator, generateJson g = JValue.obj
      [("links", JValue.arr (g.links.map Link.to_dict)),
       ("nodes", JValue.arr (g.nodes.map Node.to_dict)),
       ("version", JValue.str "1.0")]) ∧
    (∀ l : Link, Link.to_dict l = JValue.obj
      [("leftPinID", JValue.int l.left_pin_id),
       ("rightPinID", JValue.int l.right_pin_id)]) ∧
    (∀ n : Node, "nodeType" ∉ n.config.map Prod.fst →
      ∃ fs, Node.to_dict n = JValue.obj fs ∧
        lookupJ fs "nodeType" = some (JValue.str n.node_type)) ∧
    (∀ n : Node, "position" ∉ n.config.map Prod.fst →
      ∃ fs, Node.to_dict n = JValue.obj fs ∧
        lookupJ fs "position" = some (JValue.obj
          [("x", JValue.num n.position.1), ("y", JValue.num n.position.2)])) := by
  refine ⟨fun g => rfl, fun l => rfl, ?_, ?_⟩
  · intro n hmem
    refine ⟨_, rfl, ?_⟩
    rw [lookupJ_dictUpdate_not_mem n.config _ _
      (fun p hp he => hmem (by rw [← he]; exact List.mem_map_of_mem Prod.fst hp))]
    split <;> split <;> simp [lookupJ, List.find?]
  · intro n hmem
    refine ⟨_, rfl, ?_⟩
    rw [lookupJ_dictUpdate_not_mem n.config _ _
      (fun p hp he => hmem (by rw [← he]; exact List.mem_map_of_mem Prod.fst hp))]
    split <;> split <;> simp [lookupJ, List.find?]

theorem generate_wire_format_witness :
    ∃ fs, Node.to_dict exWaitNode = JValue.obj fs ∧
      lookupJ fs "nodeType" = some (JValue.str "Wait") :=
  generate_wire_format.2.2.1 exWaitNode (by decide)

/-- C4 counterexample. On a fresh graph, the move-to-target pattern with
offsetDist = 2.5 creates exactly 2 nodes (the offset node and the move
node), not 3 as claimed. -/
theorem create_move_to_target_not_three_nodes :
    (create_move_to_target StateGenerator.init (0, 0) false (some (5 / 2))).map
        (fun p => p.2.nodes.length) = Except.ok 2 ∧
    (create_move_to_target StateGenerator.init (0, 0) false (some (5 / 2))).map
        (fun p => p.2.nodes.length) ≠ Except.ok 3 :=
  ⟨rfl, fun h => absurd (Except.ok.inj h) (by decide)⟩

/-- C4 (amended). For every anchor position (and teleport flag), the
move-to-target pattern with offsetDist = 2.5 on a fresh graph yields
exactly 2 nodes, and the resulting graph's single link runs from the
offset node's `Result` output pin to the move node's `Position` input
pin. -/
theorem create_move_to_target_two_nodes (anchor : ℚ × ℚ) (tp : Bool) :
    ∃ r g2, create_move_to_target StateGenerator.init anchor tp (some (5 / 2)) =
      Except.ok (r, g2) ∧
      g2.nodes.length = 2 ∧
      ∃ l, g2.links = [l] ∧
        (∃ off ∈ g2.nodes, off.node_type = "OffsetPos" ∧
          ∃ p ∈ off.out_pins, p.name = "Result" ∧ p.id = l.left_pin_id) ∧
        (∃ mv ∈ g2.nodes, mv.node_type = "MoveTo" ∧
          ∃ q ∈ mv.in_pins, q.name = "Position" ∧ q.id = l.right_pin_id) := by
  refine ⟨_, _, rfl, rfl, Link.mk 50002 50004, rfl, ?_, ?_⟩
  · refine ⟨_, List.mem_cons_self _ _, rfl, _, List.mem_cons_self _ _, rfl, rfl⟩
  · exact ⟨_, List.mem_cons_of_mem _ (List.mem_cons_self _ _), rfl,
      _, List.mem_cons_of_mem _ (List.mem_cons_self _ _), rfl, rfl⟩

set_option maxHeartbeats 2000000 in
/-- C3. For every choice of parameters, the beacon-search pattern on a
fresh graph succeeds and builds a subgraph with zero cycles: no link's
right-pin node can reach the node owning that link's left pin by
following any chain of links in the left-to-right (output-to-input)
direction. -/
theorem create_beacon_search_acyclic (e : Int) (bp : ℚ × ℚ) (ns : String)
    (pos : ℚ × ℚ) (th : ℚ) :
    ∃ r g2, create_beacon_search StateGenerator.init e bp ns pos th =
      Except.ok (r, g2) ∧ linkAcyclic g2 = true := by
  simp only [create_beacon_search, create_start_node, create_sequence,
    create_if_node, create_push_node, create_enemy_list, create_player_pos,
    create_point_list, create_operator, create_comparison, create_offset_pos,
    create_move_to, mkNode, allocPins, create_pin, get_next_id,
    StateGenerator.init, linkE, link_pins, resolveSource, resolveTarget,
    Except.bind, H_SPACE, DEPTH_SPACE, DATA_OFFSET, BASE_ID, List.find?,
    List.any, List.map, List.append_eq, List.cons_append, List.nil_append]
  refine ⟨_, _, rfl, ?_⟩
  simp only [linkAcyclic, nodeSkel, List.map]
  decide

theorem allocPins_spec (specs : List (String × PinType)) :
    ∀ g : StateGenerator,
    (allocPins g specs).2.nodes = g.nodes ∧
    (allocPins g specs).2.links = g.links ∧
    (allocPins g specs).2.current_id = g.current_id + specs.length ∧
    List.Pairwise (· < ·) ((allocPins g specs).1.map Pin.id) ∧
    ∀ i ∈ (allocPins g specs).1.map Pin.id,
      g.current_id < i ∧ i ≤ (allocPins g specs).2.current_id := by
  induction specs with
  | nil => intro g; simp [allocPins]
  | cons hd rest ih =>
    obtain ⟨nm, t⟩ := hd
    intro g
    obtain ⟨h1, h2, h3, h4, h5⟩ := ih { g with current_id := g.current_id + 1 }
    simp only [allocPins, create_pin, get_next_id, List.map_cons,
      List.length_cons, List.pairwise_cons, List.mem_cons] at h1 h2 h3 h4 h5 ⊢
    refine ⟨h1, h2, by rw [h3]; push_cast; ring, ⟨?_, h4⟩, ?_⟩
    · intro q hq
      exact (h5 q hq).1
    · intro i hi
      rcases hi with hi | hi
      · subst hi
        refine ⟨by omega, ?_⟩
        rw [h3]; omega
      · obtain ⟨ha, hb⟩ := h5 i hi
        exact ⟨by omega, hb⟩

theorem mkNode_IdInv (g : StateGenerator) (nt : String) (pos : ℚ × ℚ)
    (inSpecs outSpecs : List (String × PinType))
    (config : List (String × JValue)) (h : IdInv g) :
    IdInv (mkNode g nt pos inSpecs outSpecs config).2 := by
  obtain ⟨hp, hb, hc⟩ := h
  obtain ⟨a1, a2, a3, a4, a5⟩ := allocPins_spec inSpecs g
  obtain ⟨b1, b2, b3, b4, b5⟩ := allocPins_spec outSpecs (allocPins g inSpecs).2
  have hmono1 : g.current_id ≤ (allocPins g inSpecs).2.current_id := by
    rw [a3]; omega
  have hmono2 : (allocPins g inSpecs).2.current_id ≤
      (allocPins (allocPins g inSpecs).2 outSpecs).2.current_id := by
    rw [b3]; omega
  show IdInv
    { (allocPins (allocPins g inSpecs).2 outSpecs).2 with
      nodes := (allocPins (allocPins g inSpecs).2 outSpecs).2.nodes ++
        [{ node_type := nt, position := pos,
           in_pins := (allocPins g inSpecs).1,
           out_pins := (allocPins (allocPins g inSpecs).2 outSpecs).1,
           config := config }] }
  have hids : pinIdsOf
      { (allocPins (allocPins g inSpecs).2 outSpecs).2 with
        nodes := (allocPins (allocPins g inSpecs).2 outSpecs).2.nodes ++
          [{ node_type := nt, position := pos,
             in_pins := (allocPins g inSpecs).1,
             out_pins := (allocPins (allocPins g inSpecs).2 outSpecs).1,
             config := config }] } =
      pinIdsOf g ++
        ((allocPins g inSpecs).1.map Pin.id ++
         (allocPins (allocPins g inSpecs).2 outSpecs).1.map Pin.id) := by
    unfold pinIdsOf
    rw [b1, a1]
    simp [List.flatMap_append, List.map_append]
  have hnew : ∀ i ∈ (allocPins g inSpecs).1.map Pin.id ++
      (allocPins (allocPins g inSpecs).2 outSpecs).1.map Pin.id,
      g.current_id < i ∧
        i ≤ (allocPins (allocPins g inSpecs).2 outSpecs).2.current_id := by
    intro i hi
    rcases List.mem_append.mp hi with hi | hi
    · obtain ⟨hlo, hhi⟩ := a5 i hi
      exact ⟨hlo, le_trans hhi hmono2⟩
    · obtain ⟨hlo, hhi⟩ := b5 i hi
      exact ⟨lt_of_le_of_lt hmono1 hlo, hhi⟩
  refine ⟨?_, ?_, ?_⟩
  · rw [hids]
    rw [List.pairwise_append]
    refine ⟨hp, ?_, ?_⟩
    · rw [List.pairwise_append]
      refine ⟨a4, b4, ?_⟩
      intro i hi j hj
      exact lt_of_le_of_lt (a5 i hi).2 (b5 j hj).1
    · intro x hx y hy
      exact lt_of_le_of_lt (hb x hx).2 (hnew y hy).1
  · rw [hids]
    intro i hi
    rcases List.mem_append.mp hi with hi | hi
    · obtain ⟨h1, h2⟩ := hb i hi
      exact ⟨h1, le_trans h2 (le_trans hmono1 hmono2)⟩
    · obtain ⟨h1, h2⟩ := hnew i hi
      exact ⟨lt_of_le_of_lt hc h1, h2⟩
  · exact le_trans hc (le_trans hmono1 hmono2)

theorem BuildStep_IdInv {g g' : StateGenerator} (st : BuildStep g g')
    (h : IdInv g) : IdInv g' := by
  cases st with
  | factory nt pos inSpecs outSpecs config =>
    exact mkNode_IdInv g nt pos inSpecs outSpecs config h
  | link sn spn tn tpn =>
    obtain ⟨hn, hcur, -⟩ := link_pins_frame g sn spn tn tpn
    obtain ⟨hp, hb, hc⟩ := h
    have hids : pinIdsOf (link_pins g sn spn tn tpn).1 = pinIdsOf g := by
      unfold pinIdsOf; rw [hn]
    exact ⟨hids ▸ hp, by rw [hids, hcur]; exact hb, hcur ▸ hc⟩

theorem Builds_IdInv {g : StateGenerator}
    (h : Builds StateGenerator.init g) : IdInv g := by
  induction h with
  | refl =>
    refine ⟨?_, ?_, ?_⟩ <;> simp [pinIdsOf, StateGenerator.init, BASE_ID]
  | tail hsteps hstep ih => exact BuildStep_IdInv hstep ih

/-- C7. Along any sequence of factory and link calls on one fresh
generator instance, the pin ids appearing in the graph are strictly
increasing in creation order (hence pairwise distinct) and every one of
them is strictly greater than the fixed base offset `BASE_ID`. -/
theorem pin_ids_increasing (g : StateGenerator)
    (h : Builds StateGenerator.init g) :
    List.Pairwise (· < ·) (pinIdsOf g) ∧ ∀ i ∈ pinIdsOf g, BASE_ID < i := by
  obtain ⟨hp, hb, -⟩ := Builds_IdInv h
  exact ⟨hp, fun i hi => (hb i hi).1⟩

theorem pin_ids_increasing_witness :
    List.Pairwise (· < ·)
      (pinIdsOf (create_sequence StateGenerator.init (0, 0)).2) ∧
    ∀ i ∈ pinIdsOf (create_sequence StateGenerator.init (0, 0)).2,
      BASE_ID < i :=
  pin_ids_increasing _
    (Relation.ReflTransGen.single
      (BuildStep.factory StateGenerator.init "Sequence" (0, 0)
        [("In", PinType.execution), ("In 2", PinType.execution),
         ("In 3", PinType.execution), ("In 4", PinType.execution),
         ("In 5", PinType.execution)]
        [("Out", PinType.execution)] []))
